import Mathlib

/-!
Verification of the Dataverse client core (`src/dataverse.py`).

The Python module keeps six module-level globals (connection configuration
plus token cache) and exposes five public tools (query, create, update,
delete, configure) on top of an internal token manager `get_access_token`.
We embed it shallowly:

* the globals become an explicit state record `DVState`, threaded through
  every function;
* the HTTP transport (`requests`) becomes an oracle `env : Request →
  HttpResult`; every function also returns the list of HTTP requests it
  issued, in order;
* the JSON parser (`json.loads`) becomes a parameter
  `parse : String → Except String Json` (the spec lists the JSON parser as
  an opaque collaborator interface);
* the wall clock (`datetime.now()`) becomes a parameter `now : Int`
  (seconds; `timedelta(seconds = k)` added to it becomes `+ k`).

Python dynamic values flowing out of JSON are modelled by the `Json`
inductive (numbers as `Int`; the claims under study never involve float
arithmetic).  Python truthiness, `str()`, `dict.get`, subscripting, `len`,
`str.split` on one character and `str.rstrip` of one character are each
modelled by a small definition next to their use sites.  `Json.obj` lists
represent Python dicts, so keys are assumed unique and lookups take the
first binding.  Header lookup is by exact key, matching the keys used in
the theorems.
-/

/-- JSON values as produced by `response.json()` / `json.loads`. -/
inductive Json where
  | null
  | bool (b : Bool)
  | num (n : Int)
  | str (s : String)
  | arr (elems : List Json)
  | obj (fields : List (String × Json))

/-- Python type name of a JSON value, used in error messages. -/
def pyTypeName : Json → String
  | Json.null => "NoneType"
  | Json.bool _ => "bool"
  | Json.num _ => "int"
  | Json.str _ => "str"
  | Json.arr _ => "list"
  | Json.obj _ => "dict"

/-- Python truthiness of a JSON value. -/
def jsonTruthy : Json → Bool
  | Json.null => false
  | Json.bool b => b
  | Json.num n => n != 0
  | Json.str s => s != ""
  | Json.arr xs => !xs.isEmpty
  | Json.obj fs => !fs.isEmpty

mutual

/-- Python `repr` of a JSON value (containers render their elements with
`repr`, strings are quoted). -/
def pyRepr : Json → String
  | Json.null => "None"
  | Json.bool true => "True"
  | Json.bool false => "False"
  | Json.num n => toString n
  | Json.str s => "\x27" ++ s ++ "\x27"
  | Json.arr xs => "[" ++ pyReprElems xs ++ "]"
  | Json.obj fs => "\x7b" ++ pyReprFields fs ++ "\x7d"

/-- Comma-joined `repr`s of the elements of a Python list. -/
def pyReprElems : List Json → String
  | [] => ""
  | [x] => pyRepr x
  | x :: xs => pyRepr x ++ ", " ++ pyReprElems xs

/-- Comma-joined `repr`s of the entries of a Python dict. -/
def pyReprFields : List (String × Json) → String
  | [] => ""
  | [kv] => "\x27" ++ kv.1 ++ "\x27: " ++ pyRepr kv.2
  | kv :: fs => "\x27" ++ kv.1 ++ "\x27: " ++ pyRepr kv.2 ++ ", " ++ pyReprFields fs

end

/-- Python `str` of a JSON value, as used by f-string interpolation. -/
def pyStr : Json → String
  | Json.str s => s
  | v => pyRepr v

/-- Python `v - k` for a JSON value `v` and an int `k`: works on numbers and
booleans (`bool` is an `int` subclass), raises `TypeError` otherwise.  Used
for `expires_in - 300`. -/
def pySub (v : Json) (k : Int) : Except String Int :=
  match v with
  | Json.num n => Except.ok (n - k)
  | Json.bool b => Except.ok ((if b then (1 : Int) else 0) - k)
  | v => Except.error
      ("unsupported operand type(s) for -: \x27" ++ pyTypeName v ++ "\x27 and \x27int\x27")

/-- Python `len` of a JSON value: defined for strings, lists and dicts. -/
def pyLen (v : Json) : Except String Nat :=
  match v with
  | Json.str s => Except.ok s.length
  | Json.arr xs => Except.ok xs.length
  | Json.obj fs => Except.ok fs.length
  | v => Except.error ("object of type \x27" ++ pyTypeName v ++ "\x27 has no len()")

/-- Python `s.rstrip(c)` for a single character: drop every trailing `c`. -/
def pyRstripChar (c : Char) (s : String) : String :=
  String.mk ((s.data.reverse.dropWhile (fun x => x = c)).reverse)

/-- Worker for Python `s.split(c)` on a single-character separator.
`acc` holds the current chunk, reversed. -/
def pySplitCharAux (c : Char) : List Char → List Char → List (List Char)
  | [], acc => [acc.reverse]
  | x :: xs, acc =>
      if x = c then acc.reverse :: pySplitCharAux c xs []
      else pySplitCharAux c xs (x :: acc)

/-- Python `s.split(c)[-1]`: the chunk after the last occurrence of `c`
(the whole string when `c` does not occur). -/
def pySplitLast (c : Char) (s : String) : String :=
  String.mk ((pySplitCharAux c s.data []).getLastD [])

/-- An HTTP request as issued by the client (method, URL, query parameters,
headers, form-encoded body, JSON body). -/
structure Request where
  method : String
  url : String
  params : List (String × String)
  headers : List (String × String)
  formData : List (String × String)
  jsonBody : Option Json

/-- Outcome of one HTTP call, as seen through `requests`:
`exn msg` models a `RequestException` (network failure, or a non-2xx status
surfaced by `raise_for_status`); `ok body headers` models a 2xx response,
whose body is either parsed JSON or a JSON-decode failure (raised only if
`.json()` is called). -/
inductive HttpResult where
  | exn (msg : String)
  | ok (body : Except String Json) (headers : List (String × String))

/-- The result dictionaries returned by the five public tools. -/
inductive OpResult where
  | querySuccess (data : Json) (count : Nat)
  | createSuccess (record_id : Option String) (record_url : String)
  | updateSuccess (record_id : String)
  | deleteSuccess (record_id : String)
  | configSuccess (message : String)
  | failure (error : String)

/-- The module-level globals of `dataverse.py`. -/
structure DVState where
  DATAVERSE_URL : String
  CLIENT_ID : String
  CLIENT_SECRET : String
  TENANT_ID : String
  ACCESS_TOKEN : Json
  TOKEN_EXPIRY : Option Int

/-- The initial global state declared at module top level. -/
def initState : DVState :=
  { DATAVERSE_URL := ""
  , CLIENT_ID := ""
  , CLIENT_SECRET := ""
  , TENANT_ID := ""
  , ACCESS_TOKEN := Json.str ""
  , TOKEN_EXPIRY := none }

/-- The guard `ACCESS_TOKEN and TOKEN_EXPIRY and datetime.now() < TOKEN_EXPIRY`. -/
def tokenFresh (now : Int) (s : DVState) : Bool :=
  jsonTruthy s.ACCESS_TOKEN &&
    (match s.TOKEN_EXPIRY with
     | some t => decide (now < t)
     | none => false)

/-- The check `not CLIENT_ID or not CLIENT_SECRET or not TENANT_ID`. -/
def credsEmpty (s : DVState) : Prop :=
  s.CLIENT_ID = "" ∨ s.CLIENT_SECRET = "" ∨ s.TENANT_ID = ""

instance (s : DVState) : Decidable (credsEmpty s) := by
  unfold credsEmpty; infer_instance

/-- The OAuth token request built by `get_access_token`. -/
def tokenRequest (s : DVState) : Request :=
  { method := "POST"
  , url := "https://login.microsoftonline.com/" ++ s.TENANT_ID ++ "/oauth2/v2.0/token"
  , params := []
  , headers := []
  , formData :=
      [ ("grant_type", "client_credentials")
      , ("client_id", s.CLIENT_ID)
      , ("client_secret", s.CLIENT_SECRET)
      , ("scope", s.DATAVERSE_URL ++ "/.default") ]
  , jsonBody := none }

/-- `get_access_token`: return the cached token while fresh, otherwise run
one client-credentials grant.  Returns the raised-or-returned value, the
new global state and the list of issued HTTP requests.  On a token body
whose `expires_in` is neither a number nor a boolean, `ACCESS_TOKEN` has
already been assigned when `expires_in - 300` raises `TypeError`, so that
branch returns a state with the token written but the expiry untouched,
exactly as the Python does. -/
def get_access_token (env : Request → HttpResult) (now : Int) (s : DVState) :
    Except String Json × DVState × List Request :=
  if tokenFresh now s then
    (Except.ok s.ACCESS_TOKEN, s, [])
  else if credsEmpty s then
    (Except.error "Client ID, Client Secret, and Tenant ID must be configured", s, [])
  else
    match env (tokenRequest s) with
    | HttpResult.exn msg => (Except.error msg, s, [tokenRequest s])
    | HttpResult.ok (Except.error msg) _ => (Except.error msg, s, [tokenRequest s])
    | HttpResult.ok (Except.ok body) _ =>
      match body with
      | Json.obj fs =>
        match fs.lookup "access_token" with
        | none => (Except.error "\x27access_token\x27", s, [tokenRequest s])
        | some tok =>
          match fs.lookup "expires_in" with
          | none =>
              (Except.ok tok,
               { s with ACCESS_TOKEN := tok, TOKEN_EXPIRY := some (now + (3600 - 300)) },
               [tokenRequest s])
          | some v =>
            match pySub v 300 with
            | Except.error msg =>
                (Except.error msg, { s with ACCESS_TOKEN := tok }, [tokenRequest s])
            | Except.ok d =>
                (Except.ok tok,
                 { s with ACCESS_TOKEN := tok, TOKEN_EXPIRY := some (now + d) },
                 [tokenRequest s])
      | Json.arr _ =>
          (Except.error "list indices must be integers or slices, not str", s, [tokenRequest s])
      | other =>
          (Except.error ("\x27" ++ pyTypeName other ++ "\x27 object is not subscriptable"),
           s, [tokenRequest s])

/-- The OData query parameters built by `query_dataverse`, in dict
insertion order; each parameter is appended only when its argument is
truthy. -/
def queryParams (select_fields filter_query : Option String) (top : Option Int) :
    List (String × String) :=
  (match select_fields with
   | some v => if v = "" then [] else [("$select", v)]
   | none => []) ++
  (match filter_query with
   | some v => if v = "" then [] else [("$filter", v)]
   | none => []) ++
  (match top with
   | some t => if t = 0 then [] else [("$top", toString t)]
   | none => [])

/-- The OData GET request issued by `query_dataverse` (built against the
globals as they stand after the token fetch). -/
def queryRequest (s₁ : DVState) (token : Json) (entity_name : String)
    (select_fields filter_query : Option String) (top : Option Int) : Request :=
  { method := "GET"
  , url := s₁.DATAVERSE_URL ++ "/api/data/v9.2/" ++ entity_name
  , params := queryParams select_fields filter_query top
  , headers :=
      [ ("Authorization", "Bearer " ++ pyStr token)
      , ("Accept", "application/json")
      , ("OData-MaxVersion", "4.0")
      , ("OData-Version", "4.0") ]
  , formData := []
  , jsonBody := none }

/-- `query_dataverse`. -/
def query_dataverse (env : Request → HttpResult) (now : Int) (s : DVState)
    (entity_name : String) (select_fields : Option String)
    (filter_query : Option String) (top : Option Int) :
    OpResult × DVState × List Request :=
  if s.DATAVERSE_URL = "" then
    (OpResult.failure "Dataverse URL must be configured", s, [])
  else
    match get_access_token env now s with
    | (Except.error e, s₁, reqs) => (OpResult.failure e, s₁, reqs)
    | (Except.ok token, s₁, reqs) =>
      match env (queryRequest s₁ token entity_name select_fields filter_query top) with
      | HttpResult.exn msg =>
          (OpResult.failure msg, s₁,
           reqs ++ [queryRequest s₁ token entity_name select_fields filter_query top])
      | HttpResult.ok (Except.error msg) _ =>
          (OpResult.failure msg, s₁,
           reqs ++ [queryRequest s₁ token entity_name select_fields filter_query top])
      | HttpResult.ok (Except.ok data) _ =>
        match data with
        | Json.obj fs =>
          match pyLen ((fs.lookup "value").getD (Json.arr [])) with
          | Except.error msg =>
              (OpResult.failure msg, s₁,
               reqs ++ [queryRequest s₁ token entity_name select_fields filter_query top])
          | Except.ok n =>
              (OpResult.querySuccess ((fs.lookup "value").getD (Json.arr [])) n, s₁,
               reqs ++ [queryRequest s₁ token entity_name select_fields filter_query top])
        | other =>
            (OpResult.failure
               ("\x27" ++ pyTypeName other ++ "\x27 object has no attribute \x27get\x27"),
             s₁,
             reqs ++ [queryRequest s₁ token entity_name select_fields filter_query top])

/-- Python `response.headers.get("OData-EntityId", "")` (modelled with
exact-case header keys). -/
def recordUrlOf (hdrs : List (String × String)) : String :=
  (hdrs.lookup "OData-EntityId").getD ""

/-- Python `record_url.split("(")[-1].rstrip(")") if record_url else None`. -/
def recordIdOf (record_url : String) : Option String :=
  if record_url = "" then none
  else some (pyRstripChar ')' (pySplitLast '(' record_url))

/-- The OData POST request issued by `create_dataverse_record`. -/
def createRequest (s₁ : DVState) (token : Json) (entity_name : String) (data : Json) :
    Request :=
  { method := "POST"
  , url := s₁.DATAVERSE_URL ++ "/api/data/v9.2/" ++ entity_name
  , params := []
  , headers :=
      [ ("Authorization", "Bearer " ++ pyStr token)
      , ("Content-Type", "application/json")
      , ("Accept", "application/json")
      , ("OData-MaxVersion", "4.0")
      , ("OData-Version", "4.0") ]
  , formData := []
  , jsonBody := some data }

/-- `create_dataverse_record`.  Note the order faithful to the source:
the token is fetched before `record_data` is parsed, and the response body
is never read (only the `OData-EntityId` header). -/
def create_dataverse_record (env : Request → HttpResult)
    (parse : String → Except String Json) (now : Int) (s : DVState)
    (entity_name : String) (record_data : String) :
    OpResult × DVState × List Request :=
  if s.DATAVERSE_URL = "" then
    (OpResult.failure "Dataverse URL must be configured", s, [])
  else
    match get_access_token env now s with
    | (Except.error e, s₁, reqs) => (OpResult.failure e, s₁, reqs)
    | (Except.ok token, s₁, reqs) =>
      match parse record_data with
      | Except.error e => (OpResult.failure ("Invalid JSON data: " ++ e), s₁, reqs)
      | Except.ok data =>
        match env (createRequest s₁ token entity_name data) with
        | HttpResult.exn msg =>
            (OpResult.failure msg, s₁, reqs ++ [createRequest s₁ token entity_name data])
        | HttpResult.ok _ hdrs =>
            (OpResult.createSuccess (recordIdOf (recordUrlOf hdrs)) (recordUrlOf hdrs),
             s₁, reqs ++ [createRequest s₁ token entity_name data])

/-- The OData PATCH request issued by `update_dataverse_record`. -/
def updateRequest (s₁ : DVState) (token : Json) (entity_name record_id : String)
    (data : Json) : Request :=
  { method := "PATCH"
  , url := s₁.DATAVERSE_URL ++ "/api/data/v9.2/" ++ entity_name ++ "(" ++ record_id ++ ")"
  , params := []
  , headers :=
      [ ("Authorization", "Bearer " ++ pyStr token)
      , ("Content-Type", "application/json")
      , ("Accept", "application/json")
      , ("OData-MaxVersion", "4.0")
      , ("OData-Version", "4.0") ]
  , formData := []
  , jsonBody := some data }

/-- `update_dataverse_record`. -/
def update_dataverse_record (env : Request → HttpResult)
    (parse : String → Except String Json) (now : Int) (s : DVState)
    (entity_name record_id record_data : String) :
    OpResult × DVState × List Request :=
  if s.DATAVERSE_URL = "" then
    (OpResult.failure "Dataverse URL must be configured", s, [])
  else
    match get_access_token env now s with
    | (Except.error e, s₁, reqs) => (OpResult.failure e, s₁, reqs)
    | (Except.ok token, s₁, reqs) =>
      match parse record_data with
      | Except.error e => (OpResult.failure ("Invalid JSON data: " ++ e), s₁, reqs)
      | Except.ok data =>
        match env (updateRequest s₁ token entity_name record_id data) with
        | HttpResult.exn msg =>
            (OpResult.failure msg, s₁, reqs ++ [updateRequest s₁ token entity_name record_id data])
        | HttpResult.ok _ _ =>
            (OpResult.updateSuccess record_id, s₁,
             reqs ++ [updateRequest s₁ token entity_name record_id data])

/-- The OData DELETE request issued by `delete_dataverse_record`. -/
def deleteRequest (s₁ : DVState) (token : Json) (entity_name record_id : String) : Request :=
  { method := "DELETE"
  , url := s₁.DATAVERSE_URL ++ "/api/data/v9.2/" ++ entity_name ++ "(" ++ record_id ++ ")"
  , params := []
  , headers :=
      [ ("Authorization", "Bearer " ++ pyStr token)
      , ("Accept", "application/json")
      , ("OData-MaxVersion", "4.0")
      , ("OData-Version", "4.0") ]
  , formData := []
  , jsonBody := none }

/-- `delete_dataverse_record`. -/
def delete_dataverse_record (env : Request → HttpResult) (now : Int) (s : DVState)
    (entity_name record_id : String) :
    OpResult × DVState × List Request :=
  if s.DATAVERSE_URL = "" then
    (OpResult.failure "Dataverse URL must be configured", s, [])
  else
    match get_access_token env now s with
    | (Except.error e, s₁, reqs) => (OpResult.failure e, s₁, reqs)
    | (Except.ok token, s₁, reqs) =>
      match env (deleteRequest s₁ token entity_name record_id) with
      | HttpResult.exn msg =>
          (OpResult.failure msg, s₁, reqs ++ [deleteRequest s₁ token entity_name record_id])
      | HttpResult.ok _ _ =>
          (OpResult.deleteSuccess record_id, s₁,
           reqs ++ [deleteRequest s₁ token entity_name record_id])

/-- The global state written by `configure_dataverse` before it attempts
authentication: all four connection fields overwritten (URL stripped of
trailing slashes) and the token cache cleared. -/
def configuredState (dataverse_url client_id client_secret tenant_id : String) : DVState :=
  { DATAVERSE_URL := pyRstripChar '/' dataverse_url
  , CLIENT_ID := client_id
  , CLIENT_SECRET := client_secret
  , TENANT_ID := tenant_id
  , ACCESS_TOKEN := Json.str ""
  , TOKEN_EXPIRY := none }

/-- `configure_dataverse`: overwrite the configuration, clear the token
cache, then validate by one `get_access_token` call; the configuration is
kept even when that validation fails. -/
def configure_dataverse (env : Request → HttpResult) (now : Int) (_s : DVState)
    (dataverse_url client_id client_secret tenant_id : String) :
    OpResult × DVState × List Request :=
  match get_access_token env now (configuredState dataverse_url client_id client_secret tenant_id) with
  | (Except.ok _, s₁, reqs) =>
      (OpResult.configSuccess "Dataverse connection configured and authenticated successfully",
       s₁, reqs)
  | (Except.error e, s₁, reqs) =>
      (OpResult.failure ("Configuration saved but authentication failed: " ++ e), s₁, reqs)

/-! ## Helper lemmas about `get_access_token` and the operations -/

/-- `get_access_token` only ever rewrites the token-cache fields: its final
state is the input state with some token/expiry values. -/
theorem ga_state_shape (env : Request → HttpResult) (now : Int) (s : DVState) :
    ∃ a e, (get_access_token env now s).2.1 =
      { s with ACCESS_TOKEN := a, TOKEN_EXPIRY := e } := by
  unfold get_access_token
  repeat' split
  all_goals exact ⟨_, _, rfl⟩

/-- `get_access_token` never changes the four connection-configuration fields. -/
theorem ga_config_fields (env : Request → HttpResult) (now : Int) (s : DVState) :
    ((get_access_token env now s).2.1).DATAVERSE_URL = s.DATAVERSE_URL ∧
    ((get_access_token env now s).2.1).CLIENT_ID = s.CLIENT_ID ∧
    ((get_access_token env now s).2.1).CLIENT_SECRET = s.CLIENT_SECRET ∧
    ((get_access_token env now s).2.1).TENANT_ID = s.TENANT_ID := by
  obtain ⟨a, e, h⟩ := ga_state_shape env now s
  rw [h]
  exact ⟨rfl, rfl, rfl, rfl⟩

/-- With an empty (falsy) cached token and a missing credential,
`get_access_token` raises the configuration `ValueError` at once: no state
change, no HTTP request. -/
theorem ga_credsEmpty (env : Request → HttpResult) (now : Int) (s : DVState)
    (h : credsEmpty s) (h2 : jsonTruthy s.ACCESS_TOKEN = false) :
    get_access_token env now s =
      (Except.error "Client ID, Client Secret, and Tenant ID must be configured", s, []) := by
  have hf : tokenFresh now s = false := by simp [tokenFresh, h2]
  unfold get_access_token
  rw [hf]
  simp [h]

/-- Each record operation leaves the state either untouched or exactly as
`get_access_token` left it. -/
theorem query_state_shape (env : Request → HttpResult) (now : Int) (s : DVState)
    (a : String) (b c : Option String) (d : Option Int) :
    (query_dataverse env now s a b c d).2.1 = s ∨
    (query_dataverse env now s a b c d).2.1 = (get_access_token env now s).2.1 := by
  unfold query_dataverse
  rcases hga : get_access_token env now s with ⟨res, s₁, reqs⟩
  split
  · exact Or.inl rfl
  · cases res with
    | error e => exact Or.inr rfl
    | ok token =>
      right
      dsimp only
      repeat' split
      all_goals rfl

theorem create_state_shape (env : Request → HttpResult)
    (parse : String → Except String Json) (now : Int) (s : DVState) (a b : String) :
    (create_dataverse_record env parse now s a b).2.1 = s ∨
    (create_dataverse_record env parse now s a b).2.1 = (get_access_token env now s).2.1 := by
  unfold create_dataverse_record
  rcases hga : get_access_token env now s with ⟨res, s₁, reqs⟩
  split
  · exact Or.inl rfl
  · cases res with
    | error e => exact Or.inr rfl
    | ok token =>
      right
      dsimp only
      repeat' split
      all_goals rfl

theorem update_state_shape (env : Request → HttpResult)
    (parse : String → Except String Json) (now : Int) (s : DVState) (a b c : String) :
    (update_dataverse_record env parse now s a b c).2.1 = s ∨
    (update_dataverse_record env parse now s a b c).2.1 = (get_access_token env now s).2.1 := by
  unfold update_dataverse_record
  rcases hga : get_access_token env now s with ⟨res, s₁, reqs⟩
  split
  · exact Or.inl rfl
  · cases res with
    | error e => exact Or.inr rfl
    | ok token =>
      right
      dsimp only
      repeat' split
      all_goals rfl

theorem delete_state_shape (env : Request → HttpResult) (now : Int) (s : DVState)
    (a b : String) :
    (delete_dataverse_record env now s a b).2.1 = s ∨
    (delete_dataverse_record env now s a b).2.1 = (get_access_token env now s).2.1 := by
  unfold delete_dataverse_record
  rcases hga : get_access_token env now s with ⟨res, s₁, reqs⟩
  split
  · exact Or.inl rfl
  · cases res with
    | error e => exact Or.inr rfl
    | ok token =>
      right
      dsimp only
      repeat' split
      all_goals rfl

/-- `configure_dataverse` ends in exactly the state `get_access_token`
reaches from the freshly configured, cache-cleared state. -/
theorem configure_state_shape (env : Request → HttpResult) (now : Int) (s : DVState)
    (u cid csec tid : String) :
    (configure_dataverse env now s u cid csec tid).2.1 =
      (get_access_token env now (configuredState u cid csec tid)).2.1 := by
  unfold configure_dataverse
  rcases hga : get_access_token env now (configuredState u cid csec tid) with ⟨res, s₁, reqs⟩
  cases res with
  | error e => rfl
  | ok token => rfl

/-! ## Reachable states and the credentials/cache invariant -/

/-- States reachable from the module-initial state through the five public
tools, under arbitrary transports, clocks, parsers and arguments. -/
inductive Reachable : DVState → Prop where
  | init : Reachable initState
  | query (env : Request → HttpResult) (now : Int) (s : DVState)
      (a : String) (b c : Option String) (d : Option Int) :
      Reachable s → Reachable (query_dataverse env now s a b c d).2.1
  | create (env : Request → HttpResult) (parse : String → Except String Json)
      (now : Int) (s : DVState) (a b : String) :
      Reachable s → Reachable (create_dataverse_record env parse now s a b).2.1
  | update (env : Request → HttpResult) (parse : String → Except String Json)
      (now : Int) (s : DVState) (a b c : String) :
      Reachable s → Reachable (update_dataverse_record env parse now s a b c).2.1
  | delete (env : Request → HttpResult) (now : Int) (s : DVState) (a b : String) :
      Reachable s → Reachable (delete_dataverse_record env now s a b).2.1
  | configure (env : Request → HttpResult) (now : Int) (s : DVState)
      (u cid csec tid : String) :
      Reachable s → Reachable (configure_dataverse env now s u cid csec tid).2.1

/-- If a credential field is empty, the token cache is empty: fields are
only rewritten by `configure_dataverse`, which clears the cache, and the
cache is only filled after the credential check passed. -/
def credsInv (s : DVState) : Prop :=
  credsEmpty s → s.ACCESS_TOKEN = Json.str "" ∧ s.TOKEN_EXPIRY = none

/-- `get_access_token` preserves `credsInv`. -/
theorem ga_credsInv (env : Request → HttpResult) (now : Int) (s : DVState)
    (h : credsInv s) : credsInv (get_access_token env now s).2.1 := by
  intro hemp
  obtain ⟨h1, h2, h3, h4⟩ := ga_config_fields env now s
  have hc : credsEmpty s := by
    unfold credsEmpty at hemp ⊢
    rw [h2, h3, h4] at hemp
    exact hemp
  obtain ⟨ha, he⟩ := h hc
  have hz : jsonTruthy s.ACCESS_TOKEN = false := by rw [ha]; decide
  rw [ga_credsEmpty env now s hc hz]
  exact ⟨ha, he⟩

/-- Every reachable state satisfies `credsInv`. -/
theorem reachable_credsInv (s : DVState) (h : Reachable s) : credsInv s := by
  induction h with
  | init => exact fun _ => ⟨rfl, rfl⟩
  | query env now s a b c d _ ih =>
      rcases query_state_shape env now s a b c d with hq | hq
      · rw [hq]; exact ih
      · rw [hq]; exact ga_credsInv env now s ih
  | create env parse now s a b _ ih =>
      rcases create_state_shape env parse now s a b with hq | hq
      · rw [hq]; exact ih
      · rw [hq]; exact ga_credsInv env now s ih
  | update env parse now s a b c _ ih =>
      rcases update_state_shape env parse now s a b c with hq | hq
      · rw [hq]; exact ih
      · rw [hq]; exact ga_credsInv env now s ih
  | delete env now s a b _ ih =>
      rcases delete_state_shape env now s a b with hq | hq
      · rw [hq]; exact ih
      · rw [hq]; exact ga_credsInv env now s ih
  | configure env now s u cid csec tid _ _ =>
      rw [configure_state_shape env now s u cid csec tid]
      refine ga_credsInv env now (configuredState u cid csec tid) ?_
      exact fun _ => ⟨rfl, rfl⟩

/-! ## Claim C1 -/

/-- The outcome shape the configuration check produces: a `Failure` carrying
one of the two configuration-error messages, with no HTTP request issued. -/
def ConfigFailure (out : OpResult × DVState × List Request) : Prop :=
  (out.1 = OpResult.failure "Dataverse URL must be configured" ∨
   out.1 = OpResult.failure "Client ID, Client Secret, and Tenant ID must be configured") ∧
  out.2.2 = []

/-- C1: in every configuration state reachable through the public API in
which any of the four required connection fields is empty, each of the four
record operations returns a configuration-error `Failure` and issues no
HTTP request at all (the check precedes any network attempt). -/
theorem C1_config_error_no_http (env : Request → HttpResult)
    (parse : String → Except String Json) (now : Int) (s : DVState)
    (entity rid payload : String) (sf fq : Option String) (top : Option Int)
    (hs : Reachable s)
    (hemp : s.DATAVERSE_URL = "" ∨ s.CLIENT_ID = "" ∨ s.CLIENT_SECRET = "" ∨ s.TENANT_ID = "") :
    ConfigFailure (query_dataverse env now s entity sf fq top) ∧
    ConfigFailure (create_dataverse_record env parse now s entity payload) ∧
    ConfigFailure (update_dataverse_record env parse now s entity rid payload) ∧
    ConfigFailure (delete_dataverse_record env now s entity rid) := by
  by_cases hu : s.DATAVERSE_URL = ""
  · refine ⟨?_, ?_, ?_, ?_⟩
    · unfold query_dataverse; rw [if_pos hu]; exact ⟨Or.inl rfl, rfl⟩
    · unfold create_dataverse_record; rw [if_pos hu]; exact ⟨Or.inl rfl, rfl⟩
    · unfold update_dataverse_record; rw [if_pos hu]; exact ⟨Or.inl rfl, rfl⟩
    · unfold delete_dataverse_record; rw [if_pos hu]; exact ⟨Or.inl rfl, rfl⟩
  · have hc : credsEmpty s := by
      rcases hemp with h | h | h | h
      · exact absurd h hu
      · exact Or.inl h
      · exact Or.inr (Or.inl h)
      · exact Or.inr (Or.inr h)
    obtain ⟨ha, _⟩ := reachable_credsInv s hs hc
    have hz : jsonTruthy s.ACCESS_TOKEN = false := by rw [ha]; decide
    have hga := ga_credsEmpty env now s hc hz
    refine ⟨?_, ?_, ?_, ?_⟩
    · unfold query_dataverse; rw [if_neg hu, hga]; exact ⟨Or.inr rfl, rfl⟩
    · unfold create_dataverse_record; rw [if_neg hu, hga]; exact ⟨Or.inr rfl, rfl⟩
    · unfold update_dataverse_record; rw [if_neg hu, hga]; exact ⟨Or.inr rfl, rfl⟩
    · unfold delete_dataverse_record; rw [if_neg hu, hga]; exact ⟨Or.inr rfl, rfl⟩

/-- A transport that refuses every connection. -/
def envRefuse : Request → HttpResult := fun _ => HttpResult.exn "connection refused"

/-- A JSON parser stub that rejects every input with the CPython message for
a string that is not valid JSON. -/
def parseNone : String → Except String Json :=
  fun _ => Except.error "Expecting value: line 1 column 2 (char 1)"

/-- Witness for C1 at the module-initial state (all fields empty). -/
theorem C1_config_error_no_http_witness :
    ConfigFailure (query_dataverse envRefuse 0 initState "accounts" none none (some 10)) ∧
    ConfigFailure (create_dataverse_record envRefuse parseNone 0 initState "accounts" "x") ∧
    ConfigFailure (update_dataverse_record envRefuse parseNone 0 initState "accounts" "rid" "x") ∧
    ConfigFailure (delete_dataverse_record envRefuse 0 initState "accounts" "rid") :=
  C1_config_error_no_http envRefuse parseNone 0 initState "accounts" "rid" "x" none none
    (some 10) Reachable.init (Or.inl rfl)

/-! ## Claim C3 -/

/-- C3: while the cache holds a non-empty token whose expiry lies in the
future, `get_access_token` returns the cached token at once — no HTTP
request, no state change — so two consecutive calls before the expiry issue
zero authentication calls and leave the cache unchanged. -/
theorem C3_cached_token_fast_path (env env' : Request → HttpResult) (now now' : Int)
    (s : DVState) (t : String) (T : Int)
    (htok : s.ACCESS_TOKEN = Json.str t) (hne : t ≠ "")
    (hexp : s.TOKEN_EXPIRY = some T) (h1 : now < T) (h2 : now' < T) :
    get_access_token env now s = (Except.ok (Json.str t), s, []) ∧
    get_access_token env' now' s = (Except.ok (Json.str t), s, []) := by
  have hf : ∀ m : Int, m < T → tokenFresh m s = true := by
    intro m hm
    unfold tokenFresh
    rw [htok, hexp]
    simp [jsonTruthy, hne, hm]
  constructor
  · unfold get_access_token
    rw [hf now h1, if_pos rfl, htok]
  · unfold get_access_token
    rw [hf now' h2, if_pos rfl, htok]

/-- A state with a valid configuration and a cached token expiring at 1000. -/
def freshState : DVState :=
  { DATAVERSE_URL := "https://org.example.com"
  , CLIENT_ID := "cid"
  , CLIENT_SECRET := "sec"
  , TENANT_ID := "tid"
  , ACCESS_TOKEN := Json.str "tok"
  , TOKEN_EXPIRY := some 1000 }

/-- Witness for C3: two consecutive calls at times 0 and 500 against a
transport that would refuse any connection — neither call touches it. -/
theorem C3_cached_token_fast_path_witness :
    get_access_token envRefuse 0 freshState = (Except.ok (Json.str "tok"), freshState, []) ∧
    get_access_token envRefuse 500 freshState = (Except.ok (Json.str "tok"), freshState, []) :=
  C3_cached_token_fast_path envRefuse envRefuse 0 500 freshState "tok" 1000 rfl
    (by decide) rfl (by decide) (by decide)

/-! ## Case characterizations of a non-cached `get_access_token` call -/

/-- Transport failure or non-2xx status on the token endpoint. -/
theorem ga_exn (env : Request → HttpResult) (now : Int) (s : DVState) (msg : String)
    (hf : tokenFresh now s = false) (hc : ¬ credsEmpty s)
    (henv : env (tokenRequest s) = HttpResult.exn msg) :
    get_access_token env now s = (Except.error msg, s, [tokenRequest s]) := by
  unfold get_access_token
  simp [hf, hc, henv]

/-- 2xx token response whose body fails to parse as JSON. -/
theorem ga_badjson (env : Request → HttpResult) (now : Int) (s : DVState) (msg : String)
    (hdrs : List (String × String))
    (hf : tokenFresh now s = false) (hc : ¬ credsEmpty s)
    (henv : env (tokenRequest s) = HttpResult.ok (Except.error msg) hdrs) :
    get_access_token env now s = (Except.error msg, s, [tokenRequest s]) := by
  unfold get_access_token
  simp [hf, hc, henv]

/-- 2xx token response whose JSON object lacks the `access_token` key. -/
theorem ga_nokey (env : Request → HttpResult) (now : Int) (s : DVState)
    (fs : List (String × Json)) (hdrs : List (String × String))
    (hf : tokenFresh now s = false) (hc : ¬ credsEmpty s)
    (henv : env (tokenRequest s) = HttpResult.ok (Except.ok (Json.obj fs)) hdrs)
    (hnk : fs.lookup "access_token" = none) :
    get_access_token env now s = (Except.error "\x27access_token\x27", s, [tokenRequest s]) := by
  unfold get_access_token
  simp [hf, hc, henv, hnk]

/-- Successful token response with `expires_in` absent: default 3600. -/
theorem ga_ok_default (env : Request → HttpResult) (now : Int) (s : DVState)
    (fs : List (String × Json)) (hdrs : List (String × String)) (tok : Json)
    (hf : tokenFresh now s = false) (hc : ¬ credsEmpty s)
    (henv : env (tokenRequest s) = HttpResult.ok (Except.ok (Json.obj fs)) hdrs)
    (htok : fs.lookup "access_token" = some tok)
    (hexp : fs.lookup "expires_in" = none) :
    get_access_token env now s =
      (Except.ok tok,
       { s with ACCESS_TOKEN := tok, TOKEN_EXPIRY := some (now + (3600 - 300)) },
       [tokenRequest s]) := by
  unfold get_access_token
  simp [hf, hc, henv, htok, hexp]

/-- Successful token response with a subtractable `expires_in`. -/
theorem ga_ok_num (env : Request → HttpResult) (now : Int) (s : DVState)
    (fs : List (String × Json)) (hdrs : List (String × String)) (tok v : Json) (d : Int)
    (hf : tokenFresh now s = false) (hc : ¬ credsEmpty s)
    (henv : env (tokenRequest s) = HttpResult.ok (Except.ok (Json.obj fs)) hdrs)
    (htok : fs.lookup "access_token" = some tok)
    (hexp : fs.lookup "expires_in" = some v)
    (hsub : pySub v 300 = Except.ok d) :
    get_access_token env now s =
      (Except.ok tok,
       { s with ACCESS_TOKEN := tok, TOKEN_EXPIRY := some (now + d) },
       [tokenRequest s]) := by
  unfold get_access_token
  simp [hf, hc, henv, htok, hexp, hsub]

/-- Token response whose `expires_in` raises `TypeError` in `expires_in - 300`:
the token has already been written, the expiry has not (partial write). -/
theorem ga_badsub (env : Request → HttpResult) (now : Int) (s : DVState)
    (fs : List (String × Json)) (hdrs : List (String × String)) (tok v : Json) (msg : String)
    (hf : tokenFresh now s = false) (hc : ¬ credsEmpty s)
    (henv : env (tokenRequest s) = HttpResult.ok (Except.ok (Json.obj fs)) hdrs)
    (htok : fs.lookup "access_token" = some tok)
    (hexp : fs.lookup "expires_in" = some v)
    (hsub : pySub v 300 = Except.error msg) :
    get_access_token env now s =
      (Except.error msg, { s with ACCESS_TOKEN := tok }, [tokenRequest s]) := by
  unfold get_access_token
  simp [hf, hc, henv, htok, hexp, hsub]

/-! ## Claim C4 -/

/-- C4: on every successful authentication the stored expiry is
`now + expires_in - 300` (with `expires_in` defaulting to 3600 when the
response omits it), hence it falls short of `now + expires_in` by exactly
300 seconds. -/
theorem C4_expiry_buffer (env : Request → HttpResult) (now : Int) (s : DVState)
    (fs : List (String × Json)) (hdrs : List (String × String)) (tok : Json)
    (hf : tokenFresh now s = false) (hc : ¬ credsEmpty s)
    (henv : env (tokenRequest s) = HttpResult.ok (Except.ok (Json.obj fs)) hdrs)
    (htok : fs.lookup "access_token" = some tok) :
    (∀ n : Int, fs.lookup "expires_in" = some (Json.num n) →
      ((get_access_token env now s).2.1).TOKEN_EXPIRY = some (now + (n - 300)) ∧
      (now + n) - (now + (n - 300)) = 300) ∧
    (fs.lookup "expires_in" = none →
      ((get_access_token env now s).2.1).TOKEN_EXPIRY = some (now + (3600 - 300)) ∧
      (now + 3600) - (now + (3600 - 300)) = 300) := by
  constructor
  · intro n hn
    rw [ga_ok_num env now s fs hdrs tok (Json.num n) (n - 300) hf hc henv htok hn rfl]
    exact ⟨rfl, by ring⟩
  · intro hn
    rw [ga_ok_default env now s fs hdrs tok hf hc henv htok hn]
    exact ⟨rfl, by ring⟩

/-- A configured state with an empty token cache. -/
def cfgState : DVState := configuredState "https://org.example.com" "cid" "sec" "tid"

/-- A transport whose token endpoint grants `tok123` for 3600 seconds. -/
def envGrant : Request → HttpResult := fun _ =>
  HttpResult.ok
    (Except.ok (Json.obj [("access_token", Json.str "tok123"), ("expires_in", Json.num 3600)]))
    []

/-- Witness for C4: authenticating at time 0 with `expires_in = 3600`
stores expiry 3300 = 0 + 3600 - 300. -/
theorem C4_expiry_buffer_witness :
    ((get_access_token envGrant 0 cfgState).2.1).TOKEN_EXPIRY = some (0 + (3600 - 300)) ∧
    ((0 : Int) + 3600) - (0 + (3600 - 300)) = 300 :=
  (C4_expiry_buffer envGrant 0 cfgState
      [("access_token", Json.str "tok123"), ("expires_in", Json.num 3600)] [] (Json.str "tok123")
      rfl (by decide) rfl rfl).1 3600 rfl

/-! ## Claim C5 -/

/-- The failure classes of one authentication attempt named by C5: transport
error or non-2xx (`msg` is the exception text), malformed JSON body (`msg`
is the parse error), or a body missing `access_token` (the `KeyError`
text). -/
def authFailureCase (env : Request → HttpResult) (s : DVState) (msg : String) : Prop :=
  env (tokenRequest s) = HttpResult.exn msg ∨
  (∃ hdrs, env (tokenRequest s) = HttpResult.ok (Except.error msg) hdrs) ∨
  (∃ fs hdrs, env (tokenRequest s) = HttpResult.ok (Except.ok (Json.obj fs)) hdrs ∧
      fs.lookup "access_token" = none ∧ msg = "\x27access_token\x27")

/-- C5: a failed authentication attempt (non-2xx/network failure, malformed
JSON, or missing `access_token`) returns the underlying error text and
leaves the whole state — in particular both token-cache fields — exactly as
it was: no partial write. -/
theorem C5_auth_failure_preserves_cache (env : Request → HttpResult) (now : Int)
    (s : DVState) (msg : String)
    (hf : tokenFresh now s = false) (hc : ¬ credsEmpty s)
    (hcase : authFailureCase env s msg) :
    get_access_token env now s = (Except.error msg, s, [tokenRequest s]) := by
  rcases hcase with h | ⟨hdrs, h⟩ | ⟨fs, hdrs, h, hnk, hmsg⟩
  · exact ga_exn env now s msg hf hc h
  · exact ga_badjson env now s msg hdrs hf hc h
  · rw [hmsg]
    exact ga_nokey env now s fs hdrs hf hc h hnk

/-- Witness for C5: a refused connection at time 0 from the configured
state returns the transport message and the unchanged state. -/
theorem C5_auth_failure_preserves_cache_witness :
    get_access_token envRefuse 0 cfgState =
      (Except.error "connection refused", cfgState, [tokenRequest cfgState]) :=
  C5_auth_failure_preserves_cache envRefuse 0 cfgState "connection refused"
    rfl (by decide) (Or.inl rfl)

/-! ## Claim C9 -/

/-- Outside the fast path, with all credentials present, `get_access_token`
issues exactly one HTTP request: the token request. -/
theorem ga_reqs (env : Request → HttpResult) (now : Int) (s : DVState)
    (hf : tokenFresh now s = false) (hc : ¬ credsEmpty s) :
    (get_access_token env now s).2.2 = [tokenRequest s] := by
  unfold get_access_token
  simp only [hf, Bool.false_eq_true, if_false]
  rw [if_neg hc]
  repeat' split
  all_goals rfl

/-- `configure_dataverse` and `get_access_token` agree on final state and
issued requests: configuration writes the new fields, clears the cache, and
then runs one authentication attempt from that cleared state. -/
theorem configure_runs_ga (env : Request → HttpResult) (now : Int) (s : DVState)
    (u cid csec tid : String) :
    (configure_dataverse env now s u cid csec tid).2 =
      (get_access_token env now (configuredState u cid csec tid)).2 := by
  unfold configure_dataverse
  rcases hga : get_access_token env now (configuredState u cid csec tid) with ⟨res, s₁, reqs⟩
  cases res with
  | error e => rfl
  | ok token => rfl

/-- C9: `configure_dataverse` overwrites all four connection fields (the
URL stripped of trailing slashes), clears the token cache and then makes
exactly one authentication attempt (exactly one HTTP token request when the
credentials are non-empty); its result reports whether that attempt
succeeded, and the new configuration is retained even when it fails. -/
theorem C9_configure_overwrites_and_validates (env : Request → HttpResult) (now : Int)
    (s : DVState) (u cid csec tid : String) :
    ((configure_dataverse env now s u cid csec tid).2.1).DATAVERSE_URL = pyRstripChar '/' u ∧
    ((configure_dataverse env now s u cid csec tid).2.1).CLIENT_ID = cid ∧
    ((configure_dataverse env now s u cid csec tid).2.1).CLIENT_SECRET = csec ∧
    ((configure_dataverse env now s u cid csec tid).2.1).TENANT_ID = tid ∧
    (configure_dataverse env now s u cid csec tid).2 =
      (get_access_token env now (configuredState u cid csec tid)).2 ∧
    (¬ (cid = "" ∨ csec = "" ∨ tid = "") →
      (configure_dataverse env now s u cid csec tid).2.2 =
        [tokenRequest (configuredState u cid csec tid)]) ∧
    (∀ tok, (get_access_token env now (configuredState u cid csec tid)).1 = Except.ok tok →
      (configure_dataverse env now s u cid csec tid).1 =
        OpResult.configSuccess "Dataverse connection configured and authenticated successfully") ∧
    (∀ e, (get_access_token env now (configuredState u cid csec tid)).1 = Except.error e →
      (configure_dataverse env now s u cid csec tid).1 =
        OpResult.failure ("Configuration saved but authentication failed: " ++ e)) := by
  have hshape := configure_state_shape env now s u cid csec tid
  have hcfg := ga_config_fields env now (configuredState u cid csec tid)
  have hrun := configure_runs_ga env now s u cid csec tid
  refine ⟨?_, ?_, ?_, ?_, hrun, ?_, ?_, ?_⟩
  · rw [hshape]; exact hcfg.1
  · rw [hshape]; exact hcfg.2.1
  · rw [hshape]; exact hcfg.2.2.1
  · rw [hshape]; exact hcfg.2.2.2
  · intro hne
    have hf : tokenFresh now (configuredState u cid csec tid) = false := rfl
    have hc : ¬ credsEmpty (configuredState u cid csec tid) := hne
    calc (configure_dataverse env now s u cid csec tid).2.2
        = (get_access_token env now (configuredState u cid csec tid)).2.2 := by rw [hrun]
      _ = [tokenRequest (configuredState u cid csec tid)] :=
          ga_reqs env now (configuredState u cid csec tid) hf hc
  · intro tok htok
    unfold configure_dataverse
    rcases hga : get_access_token env now (configuredState u cid csec tid) with ⟨res, s₁, reqs⟩
    rw [hga] at htok
    cases res with
    | error e => exact absurd htok (by simp)
    | ok t => rfl
  · intro e he
    unfold configure_dataverse
    rcases hga : get_access_token env now (configuredState u cid csec tid) with ⟨res, s₁, reqs⟩
    rw [hga] at he
    cases res with
    | error e₂ =>
        cases he
        rfl
    | ok t => exact absurd he (by simp)

/-- Witness for C9, applying the theorem once with a granting transport and
once with a refusing one: the fields are always overwritten (URL stripped
of its trailing slash), one token request is issued, and the result mirrors
the authentication outcome. -/
theorem C9_configure_overwrites_and_validates_witness :
    ((configure_dataverse envGrant 0 initState "https://org.example.com/" "cid" "sec" "tid").2.1).DATAVERSE_URL =
      pyRstripChar '/' "https://org.example.com/" ∧
    (configure_dataverse envGrant 0 initState "https://org.example.com/" "cid" "sec" "tid").2.2 =
      [tokenRequest (configuredState "https://org.example.com/" "cid" "sec" "tid")] ∧
    (configure_dataverse envGrant 0 initState "https://org.example.com/" "cid" "sec" "tid").1 =
      OpResult.configSuccess "Dataverse connection configured and authenticated successfully" ∧
    (configure_dataverse envRefuse 0 initState "https://org.example.com/" "cid" "sec" "tid").1 =
      OpResult.failure ("Configuration saved but authentication failed: " ++ "connection refused") ∧
    ((configure_dataverse envRefuse 0 initState "https://org.example.com/" "cid" "sec" "tid").2.1).CLIENT_ID = "cid" := by
  have h1 := C9_configure_overwrites_and_validates envGrant 0 initState
    "https://org.example.com/" "cid" "sec" "tid"
  have h2 := C9_configure_overwrites_and_validates envRefuse 0 initState
    "https://org.example.com/" "cid" "sec" "tid"
  exact ⟨h1.1, h1.2.2.2.2.2.1 (by decide),
         h1.2.2.2.2.2.2.1 (Json.str "tok123") rfl,
         h2.2.2.2.2.2.2.2 "connection refused" rfl,
         h2.2.1⟩

/-! ## Claim C10 -/

/-- C10: supplying `select_fields` or `filter_query` as the empty string is
observably identical to omitting it — the whole operation output (result,
state, issued requests) coincides, so the parameter is dropped from the
request exactly as when absent. -/
theorem C10_empty_string_params_omitted (env : Request → HttpResult) (now : Int)
    (s : DVState) (entity : String) (sf fq : Option String) (top : Option Int) :
    query_dataverse env now s entity (some "") fq top =
      query_dataverse env now s entity none fq top ∧
    query_dataverse env now s entity sf (some "") top =
      query_dataverse env now s entity sf none top := by
  have hp1 : ∀ f t, queryParams (some "") f t = queryParams none f t := by
    intro f t; rfl
  have hp2 : ∀ sel t, queryParams sel (some "") t = queryParams sel none t := by
    intro sel t
    unfold queryParams
    cases sel <;> rfl
  constructor
  · unfold query_dataverse queryRequest
    simp only [hp1]
  · unfold query_dataverse queryRequest
    simp only [hp2]

/-! ## String lemmas for the create-identifier extraction (C7) -/

theorem pySplitCharAux_no_sep (c : Char) (ys : List Char) (h : c ∉ ys) :
    ∀ acc, pySplitCharAux c ys acc = [acc.reverse ++ ys] := by
  induction ys with
  | nil => intro acc; simp [pySplitCharAux]
  | cons y ys ih =>
      intro acc
      have hy : ¬ (y = c) := fun he => h (he ▸ List.mem_cons_self y ys)
      have h2 : c ∉ ys := fun hm => h (List.mem_cons_of_mem y hm)
      unfold pySplitCharAux
      rw [if_neg hy, ih h2]
      simp

theorem pySplitCharAux_ne_nil (c : Char) (l : List Char) :
    ∀ acc, pySplitCharAux c l acc ≠ [] := by
  induction l with
  | nil => intro acc; simp [pySplitCharAux]
  | cons x xs ih =>
      intro acc
      unfold pySplitCharAux
      by_cases hx : x = c
      · rw [if_pos hx]; simp
      · rw [if_neg hx]; exact ih (x :: acc)

theorem getLastD_irrel {α : Type} (L : List α) (hne : L ≠ []) (a b : α) :
    L.getLastD a = L.getLastD b := by
  cases L with
  | nil => exact absurd rfl hne
  | cons x xs => rfl

theorem pySplitCharAux_last (c : Char) (ys : List Char) (h : c ∉ ys) :
    ∀ xs acc, (pySplitCharAux c (xs ++ c :: ys) acc).getLastD [] = ys := by
  intro xs
  induction xs with
  | nil =>
      intro acc
      show (pySplitCharAux c (c :: ys) acc).getLastD [] = ys
      unfold pySplitCharAux
      rw [if_pos rfl, pySplitCharAux_no_sep c ys h []]
      rfl
  | cons x xs ih =>
      intro acc
      show (pySplitCharAux c (x :: (xs ++ c :: ys)) acc).getLastD [] = ys
      unfold pySplitCharAux
      by_cases hx : x = c
      · rw [if_pos hx]
        rw [List.getLastD_cons]
        calc (pySplitCharAux c (xs ++ c :: ys) []).getLastD acc.reverse
            = (pySplitCharAux c (xs ++ c :: ys) []).getLastD [] :=
              getLastD_irrel _ (pySplitCharAux_ne_nil c _ []) _ _
          _ = ys := ih []
      · rw [if_neg hx]
        exact ih (x :: acc)

theorem dropWhile_eq_self_of {α : Type} (p : α → Bool) (l : List α)
    (h : ∀ x ∈ l, p x = false) : l.dropWhile p = l := by
  cases l with
  | nil => rfl
  | cons x xs =>
      rw [List.dropWhile_cons, h x (List.mem_cons_self x xs)]
      simp

/-- Dropping one trailing `c` from a chunk that contains no other `c`. -/
theorem rstrip_append_single (l : List Char) (c : Char) (h : c ∉ l) :
    pyRstripChar c (String.mk (l ++ [c])) = String.mk l := by
  unfold pyRstripChar
  rw [show (String.mk (l ++ [c])).data = l ++ [c] from rfl, List.reverse_append]
  show String.mk (((c :: l.reverse).dropWhile (fun x => x = c)).reverse) = String.mk l
  rw [List.dropWhile_cons]
  rw [if_pos (by simp)]
  rw [dropWhile_eq_self_of _ _ ?hh, List.reverse_reverse]
  case hh =>
    intro x hx
    simp only [decide_eq_false_iff_not]
    intro he
    exact h (he ▸ List.mem_reverse.1 hx)

/-- The split-then-rstrip extraction recovers the identifier between the
last opening parenthesis and the trailing closing one. -/
theorem extract_between_parens (p rid : String)
    (h1 : '(' ∉ rid.data) (h2 : ')' ∉ rid.data) :
    pyRstripChar ')' (pySplitLast '(' (p ++ "(" ++ rid ++ ")")) = rid := by
  have hdata : (p ++ "(" ++ rid ++ ")").data = p.data ++ '(' :: (rid.data ++ [')']) := by
    rw [String.data_append, String.data_append, String.data_append]
    simp
  have hnotin : '(' ∉ rid.data ++ [')'] := by
    intro hm
    rcases List.mem_append.1 hm with hm | hm
    · exact h1 hm
    · simp at hm
  have hsplit : pySplitLast '(' (p ++ "(" ++ rid ++ ")") = String.mk (rid.data ++ [')']) := by
    unfold pySplitLast
    rw [hdata, pySplitCharAux_last '(' (rid.data ++ [')']) hnotin p.data []]
  rw [hsplit, rstrip_append_single rid.data ')' h2]

/-! ## Claim C7 -/

/-- Concatenating a parenthesised identifier never yields the empty string. -/
theorem append_parens_ne_empty (p rid : String) : ¬ (p ++ "(" ++ rid ++ ")" = "") := by
  intro he
  have hd : (p ++ "(" ++ rid ++ ")").data = p.data ++ '(' :: (rid.data ++ [')']) := by
    rw [String.data_append, String.data_append, String.data_append]
    simp
  rw [he] at hd
  simp at hd

/-- C7: on a successful create, `recordId` is the substring of the
`OData-EntityId` header between the last opening parenthesis and the
trailing closing one, and `recordUrl` is the full header value; with the
header absent, `recordId` is null and `recordUrl` is the empty string. -/
theorem C7_create_record_id_extraction (env : Request → HttpResult)
    (parse : String → Except String Json) (now : Int) (s : DVState)
    (entity payload : String) (tok d : Json) (s₁ : DVState) (ars : List Request)
    (body : Except String Json) (hdrs : List (String × String))
    (hurl : ¬ s.DATAVERSE_URL = "")
    (hga : get_access_token env now s = (Except.ok tok, s₁, ars))
    (hparse : parse payload = Except.ok d)
    (henv : env (createRequest s₁ tok entity d) = HttpResult.ok body hdrs) :
    (∀ p rid, '(' ∉ rid.data → ')' ∉ rid.data →
      hdrs.lookup "OData-EntityId" = some (p ++ "(" ++ rid ++ ")") →
      (create_dataverse_record env parse now s entity payload).1 =
        OpResult.createSuccess (some rid) (p ++ "(" ++ rid ++ ")")) ∧
    (hdrs.lookup "OData-EntityId" = none →
      (create_dataverse_record env parse now s entity payload).1 =
        OpResult.createSuccess none "") := by
  have hrun : create_dataverse_record env parse now s entity payload =
      (OpResult.createSuccess (recordIdOf (recordUrlOf hdrs)) (recordUrlOf hdrs),
       s₁, ars ++ [createRequest s₁ tok entity d]) := by
    unfold create_dataverse_record
    rw [if_neg hurl]
    simp only [hga, hparse, henv]
  constructor
  · intro p rid h1 h2 hhdr
    rw [hrun]
    unfold recordIdOf recordUrlOf
    rw [hhdr]
    simp only [Option.getD_some]
    rw [if_neg (append_parens_ne_empty p rid), extract_between_parens p rid h1 h2]
  · intro hhdr
    rw [hrun]
    unfold recordIdOf recordUrlOf
    rw [hhdr]
    rfl

/-- A parser that accepts everything as the empty JSON object. -/
def parseEmptyObj : String → Except String Json := fun _ => Except.ok (Json.obj [])

/-- A transport granting a token on the (body-less) token POST and
answering the create POST with a created-entity header. -/
def envCreate : Request → HttpResult := fun r =>
  match r.jsonBody with
  | none =>
      HttpResult.ok
        (Except.ok (Json.obj [("access_token", Json.str "tok123"), ("expires_in", Json.num 3600)]))
        []
  | some _ =>
      HttpResult.ok (Except.ok Json.null)
        [("OData-EntityId",
          "https://x/api/data/v9.2/accounts(11112222-3333-4444-5555-666677778888)")]

/-- The cache state reached by authenticating from `cfgState` at time 0. -/
def authedState : DVState :=
  { cfgState with ACCESS_TOKEN := Json.str "tok123", TOKEN_EXPIRY := some (0 + (3600 - 300)) }

/-- Witness for C7 at the header value from the spec. -/
theorem C7_create_record_id_extraction_witness :
    (create_dataverse_record envCreate parseEmptyObj 0 cfgState "accounts" "\x7b\x7d").1 =
      OpResult.createSuccess (some "11112222-3333-4444-5555-666677778888")
        ("https://x/api/data/v9.2/accounts" ++ "(" ++ "11112222-3333-4444-5555-666677778888" ++ ")") :=
  (C7_create_record_id_extraction envCreate parseEmptyObj 0 cfgState "accounts" "\x7b\x7d"
      (Json.str "tok123") (Json.obj []) authedState [tokenRequest cfgState]
      (Except.ok Json.null)
      [("OData-EntityId",
        "https://x/api/data/v9.2/accounts(11112222-3333-4444-5555-666677778888)")]
      (by decide) rfl rfl rfl).1
    "https://x/api/data/v9.2/accounts" "11112222-3333-4444-5555-666677778888"
    (by decide) (by decide) (by decide)

/-! ## Parameter-lookup lemmas for C6 -/

theorem qp_select_some (v : String) (fil : Option String) (top : Option Int)
    (hv : ¬ v = "") :
    (queryParams (some v) fil top).lookup "$select" = some v := by
  unfold queryParams
  dsimp only
  rw [if_neg hv]
  rfl

theorem qp_select_none (sel fil : Option String) (top : Option Int)
    (h : sel = none ∨ sel = some "") :
    (queryParams sel fil top).lookup "$select" = none := by
  rcases h with h | h <;> subst h <;>
    rcases fil with _ | fv <;> rcases top with _ | tv <;>
    unfold queryParams <;> dsimp only <;> first | (split_ifs <;> simp_all [List.lookup]) | simp [List.lookup]

theorem qp_filter_some (sel : Option String) (v : String) (top : Option Int)
    (hv : ¬ v = "") :
    (queryParams sel (some v) top).lookup "$filter" = some v := by
  rcases sel with _ | sv <;>
    unfold queryParams <;> dsimp only <;> rw [if_neg hv] <;> first | (split_ifs <;> simp_all [List.lookup]) | simp [List.lookup]

theorem qp_filter_none (sel fil : Option String) (top : Option Int)
    (h : fil = none ∨ fil = some "") :
    (queryParams sel fil top).lookup "$filter" = none := by
  rcases h with h | h <;> subst h <;>
    rcases sel with _ | sv <;> rcases top with _ | tv <;>
    unfold queryParams <;> dsimp only <;> first | (split_ifs <;> simp_all [List.lookup]) | simp [List.lookup]

theorem qp_top_some (sel fil : Option String) (t : Int) (ht : ¬ t = 0) :
    (queryParams sel fil (some t)).lookup "$top" = some (toString t) := by
  rcases sel with _ | sv <;> rcases fil with _ | fv <;>
    unfold queryParams <;> dsimp only <;> rw [if_neg ht] <;> first | (split_ifs <;> simp_all [List.lookup]) | simp [List.lookup]

theorem qp_top_none (sel fil : Option String) (top : Option Int)
    (h : top = none ∨ top = some 0) :
    (queryParams sel fil top).lookup "$top" = none := by
  rcases h with h | h <;> subst h <;>
    rcases sel with _ | sv <;> rcases fil with _ | fv <;>
    unfold queryParams <;> dsimp only <;> first | (split_ifs <;> simp_all [List.lookup]) | simp [List.lookup]

/-! ## Claim C6 -/

/-- C6: the query request carries exactly the parameters the descriptor
prescribes — `$select` the comma-joined field string when truthy, `$filter`
the raw expression when truthy, `$top` the rendered count when non-zero,
each omitted otherwise — and a 2xx body yields `Success` with the `value`
array verbatim (empty when the key is absent) and its length as count. -/
theorem C6_query_roundtrip (env : Request → HttpResult) (now : Int) (s : DVState)
    (entity : String) (sel fil : Option String) (top : Option Int)
    (tok : Json) (s₁ : DVState) (ars : List Request)
    (fs : List (String × Json)) (hdrs : List (String × String)) (xs : List Json)
    (hurl : ¬ s.DATAVERSE_URL = "")
    (hga : get_access_token env now s = (Except.ok tok, s₁, ars))
    (henv : env (queryRequest s₁ tok entity sel fil top) =
      HttpResult.ok (Except.ok (Json.obj fs)) hdrs)
    (hval : fs.lookup "value" = some (Json.arr xs) ∨
      (fs.lookup "value" = none ∧ xs = [])) :
    query_dataverse env now s entity sel fil top =
      (OpResult.querySuccess (Json.arr xs) xs.length, s₁,
       ars ++ [queryRequest s₁ tok entity sel fil top]) ∧
    (queryRequest s₁ tok entity sel fil top).method = "GET" ∧
    (queryRequest s₁ tok entity sel fil top).url =
      s₁.DATAVERSE_URL ++ "/api/data/v9.2/" ++ entity ∧
    (queryRequest s₁ tok entity sel fil top).headers =
      [ ("Authorization", "Bearer " ++ pyStr tok)
      , ("Accept", "application/json")
      , ("OData-MaxVersion", "4.0")
      , ("OData-Version", "4.0") ] ∧
    (∀ v, sel = some v → ¬ v = "" →
      (queryRequest s₁ tok entity sel fil top).params.lookup "$select" = some v) ∧
    (sel = none ∨ sel = some "" →
      (queryRequest s₁ tok entity sel fil top).params.lookup "$select" = none) ∧
    (∀ v, fil = some v → ¬ v = "" →
      (queryRequest s₁ tok entity sel fil top).params.lookup "$filter" = some v) ∧
    (fil = none ∨ fil = some "" →
      (queryRequest s₁ tok entity sel fil top).params.lookup "$filter" = none) ∧
    (∀ t, top = some t → ¬ t = 0 →
      (queryRequest s₁ tok entity sel fil top).params.lookup "$top" = some (toString t)) ∧
    (top = none ∨ top = some 0 →
      (queryRequest s₁ tok entity sel fil top).params.lookup "$top" = none) := by
  refine ⟨?_, rfl, rfl, rfl, ?_, ?_, ?_, ?_, ?_, ?_⟩
  · unfold query_dataverse
    rw [if_neg hurl]
    simp only [hga, henv]
    rcases hval with hv | ⟨hv, hxs⟩
    · simp only [hv, Option.getD_some]
      rfl
    · subst hxs
      simp only [hv]
      rfl
  · intro v hv hne; subst hv; exact qp_select_some v fil top hne
  · intro h; exact qp_select_none sel fil top h
  · intro v hv hne; subst hv; exact qp_filter_some sel v top hne
  · intro h; exact qp_filter_none sel fil top h
  · intro t ht hne; subst ht; exact qp_top_some sel fil t hne
  · intro h; exact qp_top_none sel fil top h

/-- A transport granting a token on POST and answering GET queries with one
Acme account record. -/
def envQuery : Request → HttpResult := fun r =>
  if r.method = "POST" then
    HttpResult.ok
      (Except.ok (Json.obj [("access_token", Json.str "tok123"), ("expires_in", Json.num 3600)]))
      []
  else
    HttpResult.ok
      (Except.ok (Json.obj [("value", Json.arr [Json.obj [("name", Json.str "Acme")]])]))
      []

/-- Witness for C6 at the descriptor from the spec. -/
theorem C6_query_roundtrip_witness :
    query_dataverse envQuery 0 cfgState "accounts" (some "name,accountid") none (some 5) =
      (OpResult.querySuccess (Json.arr [Json.obj [("name", Json.str "Acme")]]) 1,
       authedState,
       [tokenRequest cfgState,
        queryRequest authedState (Json.str "tok123") "accounts" (some "name,accountid") none (some 5)]) ∧
    (queryRequest authedState (Json.str "tok123") "accounts" (some "name,accountid") none (some 5)).params.lookup "$select" =
      some "name,accountid" ∧
    (queryRequest authedState (Json.str "tok123") "accounts" (some "name,accountid") none (some 5)).params.lookup "$top" =
      some (toString (5 : Int)) ∧
    (queryRequest authedState (Json.str "tok123") "accounts" (some "name,accountid") none (some 5)).params.lookup "$filter" =
      none := by
  have h := C6_query_roundtrip envQuery 0 cfgState "accounts" (some "name,accountid") none
    (some 5) (Json.str "tok123") authedState [tokenRequest cfgState]
    [("value", Json.arr [Json.obj [("name", Json.str "Acme")]])] []
    [Json.obj [("name", Json.str "Acme")]]
    (by decide) rfl rfl (Or.inl rfl)
  exact ⟨h.1, h.2.2.2.2.1 "name,accountid" rfl (by decide),
         h.2.2.2.2.2.2.2.2.1 5 rfl (by decide),
         h.2.2.2.2.2.2.2.1 (Or.inl rfl)⟩

/-! ## Claim C2 -/

/-- The cached-token fast path of `get_access_token`. -/
theorem ga_fast (env : Request → HttpResult) (now : Int) (s : DVState)
    (hfp : tokenFresh now s = true) :
    get_access_token env now s = (Except.ok s.ACCESS_TOKEN, s, []) := by
  unfold get_access_token
  rw [hfp, if_pos rfl]

/-- Counterexample to C2 as stated: from a configured state with an empty
token cache, a create call with a payload the parser rejects nevertheless
issues one HTTP request — the token fetch runs before `json.loads` — and if
that token fetch fails, the result is the authentication failure, not a
`ValidationError`. -/
theorem C2_counterexample :
    (create_dataverse_record envGrant parseNone 0 cfgState "accounts" "\x7bbad json\x7d").1 =
      OpResult.failure ("Invalid JSON data: " ++ "Expecting value: line 1 column 2 (char 1)") ∧
    (create_dataverse_record envGrant parseNone 0 cfgState "accounts" "\x7bbad json\x7d").2.2.length = 1 ∧
    (create_dataverse_record envRefuse parseNone 0 cfgState "accounts" "\x7bbad json\x7d").1 =
      OpResult.failure "connection refused" :=
  ⟨rfl, rfl, rfl⟩

/-- C2 amended: when a usable token is available (cached, or obtained by a
successful authentication call), a create or update whose payload fails to
parse returns `Failure(ValidationError)` whose message contains the parse
error, and issues no record-endpoint HTTP request — the only requests are
those of the token fetch, and there are none at all when a valid token was
cached. -/
theorem C2_invalid_payload_validation (env : Request → HttpResult)
    (parse : String → Except String Json) (now : Int) (s : DVState)
    (entity rid payload e : String) (tok : Json) (s₁ : DVState) (ars : List Request)
    (hurl : ¬ s.DATAVERSE_URL = "")
    (hga : get_access_token env now s = (Except.ok tok, s₁, ars))
    (hparse : parse payload = Except.error e) :
    create_dataverse_record env parse now s entity payload =
      (OpResult.failure ("Invalid JSON data: " ++ e), s₁, ars) ∧
    update_dataverse_record env parse now s entity rid payload =
      (OpResult.failure ("Invalid JSON data: " ++ e), s₁, ars) ∧
    (tokenFresh now s = true → ars = []) := by
  refine ⟨?_, ?_, ?_⟩
  · unfold create_dataverse_record
    rw [if_neg hurl]
    simp only [hga, hparse]
  · unfold update_dataverse_record
    rw [if_neg hurl]
    simp only [hga, hparse]
  · intro hfp
    rw [ga_fast env now s hfp] at hga
    exact (congrArg (fun x => x.2.2) hga).symm

/-- Witness for the amended C2, from a state with a valid cached token: the
record endpoint is never contacted and no HTTP request at all is issued. -/
theorem C2_invalid_payload_validation_witness :
    create_dataverse_record envRefuse parseNone 0 freshState "accounts" "\x7bbad json\x7d" =
      (OpResult.failure ("Invalid JSON data: " ++ "Expecting value: line 1 column 2 (char 1)"),
       freshState, []) ∧
    update_dataverse_record envRefuse parseNone 0 freshState "accounts" "rid1" "\x7bbad json\x7d" =
      (OpResult.failure ("Invalid JSON data: " ++ "Expecting value: line 1 column 2 (char 1)"),
       freshState, []) ∧
    (tokenFresh 0 freshState = true → ([] : List Request) = []) :=
  C2_invalid_payload_validation envRefuse parseNone 0 freshState "accounts" "rid1"
    "\x7bbad json\x7d" "Expecting value: line 1 column 2 (char 1)"
    (Json.str "tok") freshState [] (by decide) rfl rfl

/-! ## Claim C8 -/

/-- Token-cache invariant: a truthy (non-empty) access token implies a set
expiry. -/
def cacheInv (s : DVState) : Prop :=
  jsonTruthy s.ACCESS_TOKEN = true → s.TOKEN_EXPIRY ≠ none

/-- A transport whose parsed token bodies only carry an `expires_in` on
which the Python subtraction `expires_in - 300` is defined. -/
def WellTypedExpiry (env : Request → HttpResult) : Prop :=
  ∀ req fs hdrs v, env req = HttpResult.ok (Except.ok (Json.obj fs)) hdrs →
    fs.lookup "expires_in" = some v → ∃ n, pySub v 300 = Except.ok n

/-- A token endpoint that answers with `expires_in` as a JSON string, as
the OAuth v1 endpoints did. -/
def envBadExpires : Request → HttpResult := fun _ =>
  HttpResult.ok
    (Except.ok (Json.obj [("access_token", Json.str "tok123"), ("expires_in", Json.str "3600")]))
    []

/-- Counterexample to C8 as stated: one public `configure_dataverse` call
against a token endpoint whose `expires_in` is the string "3600" ends in a
state with a non-empty `ACCESS_TOKEN` and no `TOKEN_EXPIRY` — the partial
write of lines 61-65 of the source. -/
theorem C8_counterexample :
    jsonTruthy ((configure_dataverse envBadExpires 0 initState
        "https://org.example.com" "cid" "sec" "tid").2.1).ACCESS_TOKEN = true ∧
    ((configure_dataverse envBadExpires 0 initState
        "https://org.example.com" "cid" "sec" "tid").2.1).TOKEN_EXPIRY = none ∧
    (configure_dataverse envBadExpires 0 initState
        "https://org.example.com" "cid" "sec" "tid").1 =
      OpResult.failure ("Configuration saved but authentication failed: " ++
        "unsupported operand type(s) for -: \x27str\x27 and \x27int\x27") :=
  ⟨rfl, rfl, rfl⟩

/-- Outside the fast path, empty credentials stop `get_access_token` with
the configuration error and no side effect. -/
theorem ga_creds_stop (env : Request → HttpResult) (now : Int) (s : DVState)
    (hf : tokenFresh now s = false) (hc : credsEmpty s) :
    get_access_token env now s =
      (Except.error "Client ID, Client Secret, and Tenant ID must be configured", s, []) := by
  unfold get_access_token
  simp [hf, hc]

/-- Token body parsed to a JSON list: subscripting raises `TypeError`. -/
theorem ga_arrbody (env : Request → HttpResult) (now : Int) (s : DVState)
    (xs : List Json) (hdrs : List (String × String))
    (hf : tokenFresh now s = false) (hc : ¬ credsEmpty s)
    (henv : env (tokenRequest s) = HttpResult.ok (Except.ok (Json.arr xs)) hdrs) :
    get_access_token env now s =
      (Except.error "list indices must be integers or slices, not str", s, [tokenRequest s]) := by
  unfold get_access_token
  simp [hf, hc, henv]

/-- Token body parsed to a non-subscriptable JSON scalar. -/
theorem ga_nonobj (env : Request → HttpResult) (now : Int) (s : DVState)
    (j : Json) (hdrs : List (String × String))
    (hf : tokenFresh now s = false) (hc : ¬ credsEmpty s)
    (henv : env (tokenRequest s) = HttpResult.ok (Except.ok j) hdrs)
    (hj : j = Json.null ∨ (∃ b, j = Json.bool b) ∨ (∃ n, j = Json.num n) ∨
      (∃ t, j = Json.str t)) :
    get_access_token env now s =
      (Except.error ("\x27" ++ pyTypeName j ++ "\x27 object is not subscriptable"),
       s, [tokenRequest s]) := by
  rcases hj with h | ⟨b, h⟩ | ⟨n, h⟩ | ⟨t, h⟩ <;> subst h <;>
    unfold get_access_token <;> simp [hf, hc, henv]

/-- `get_access_token` preserves the cache invariant under well-typed
token responses. -/
theorem ga_cacheInv (env : Request → HttpResult) (now : Int) (s : DVState)
    (hw : WellTypedExpiry env) (hinv : cacheInv s) :
    cacheInv (get_access_token env now s).2.1 := by
  by_cases hfp : tokenFresh now s = true
  · rw [ga_fast env now s hfp]; exact hinv
  · have hf : tokenFresh now s = false := by simpa using hfp
    by_cases hcred : credsEmpty s
    · rw [ga_creds_stop env now s hf hcred]; exact hinv
    · cases henv : env (tokenRequest s) with
      | exn msg => rw [ga_exn env now s msg hf hcred henv]; exact hinv
      | ok body hdrs =>
        cases body with
        | error msg => rw [ga_badjson env now s msg hdrs hf hcred henv]; exact hinv
        | ok j =>
          rcases j with _ | b | n | t | xs | fs
          · rw [ga_nonobj env now s Json.null hdrs hf hcred henv (Or.inl rfl)]; exact hinv
          · rw [ga_nonobj env now s (Json.bool b) hdrs hf hcred henv
              (Or.inr (Or.inl ⟨b, rfl⟩))]; exact hinv
          · rw [ga_nonobj env now s (Json.num n) hdrs hf hcred henv
              (Or.inr (Or.inr (Or.inl ⟨n, rfl⟩)))]; exact hinv
          · rw [ga_nonobj env now s (Json.str t) hdrs hf hcred henv
              (Or.inr (Or.inr (Or.inr ⟨t, rfl⟩)))]; exact hinv
          · rw [ga_arrbody env now s xs hdrs hf hcred henv]; exact hinv
          · cases hlk : fs.lookup "access_token" with
            | none => rw [ga_nokey env now s fs hdrs hf hcred henv hlk]; exact hinv
            | some tok =>
              cases hexp : fs.lookup "expires_in" with
              | none =>
                  rw [ga_ok_default env now s fs hdrs tok hf hcred henv hlk hexp]
                  intro _
                  simp
              | some v =>
                  obtain ⟨n, hn⟩ := hw (tokenRequest s) fs hdrs v henv hexp
                  rw [ga_ok_num env now s fs hdrs tok v n hf hcred henv hlk hexp hn]
                  intro _
                  simp

/-- C8 amended: under transports whose token bodies carry a subtractable
`expires_in` (absent, number, or boolean), the token-cache invariant — a
non-empty `accessToken` implies a set `expiresAt` — holds at the initial
state and is preserved by `get_access_token` and all five public tools;
moreover the cached token is ever returned without a refresh request only
when the current time is strictly before the stored expiry.  (The
restriction on transports is forced by `C8_counterexample`.) -/
theorem C8_cache_invariant :
    cacheInv initState ∧
    (∀ env now s, WellTypedExpiry env → cacheInv s →
      cacheInv (get_access_token env now s).2.1) ∧
    (∀ env now s a b c d, WellTypedExpiry env → cacheInv s →
      cacheInv (query_dataverse env now s a b c d).2.1) ∧
    (∀ env parse now s a b, WellTypedExpiry env → cacheInv s →
      cacheInv (create_dataverse_record env parse now s a b).2.1) ∧
    (∀ env parse now s a b c, WellTypedExpiry env → cacheInv s →
      cacheInv (update_dataverse_record env parse now s a b c).2.1) ∧
    (∀ env now s a b, WellTypedExpiry env → cacheInv s →
      cacheInv (delete_dataverse_record env now s a b).2.1) ∧
    (∀ env now s u cid csec tid, WellTypedExpiry env →
      cacheInv (configure_dataverse env now s u cid csec tid).2.1) ∧
    (∀ env now s tok, (get_access_token env now s).1 = Except.ok tok →
      (get_access_token env now s).2.2 = [] →
      ∃ T, s.TOKEN_EXPIRY = some T ∧ now < T) := by
  refine ⟨?_, ga_cacheInv, ?_, ?_, ?_, ?_, ?_, ?_⟩
  · intro h
    exact nomatch h
  · intro env now s a b c d hw hinv
    rcases query_state_shape env now s a b c d with hq | hq
    · rw [hq]; exact hinv
    · rw [hq]; exact ga_cacheInv env now s hw hinv
  · intro env parse now s a b hw hinv
    rcases create_state_shape env parse now s a b with hq | hq
    · rw [hq]; exact hinv
    · rw [hq]; exact ga_cacheInv env now s hw hinv
  · intro env parse now s a b c hw hinv
    rcases update_state_shape env parse now s a b c with hq | hq
    · rw [hq]; exact hinv
    · rw [hq]; exact ga_cacheInv env now s hw hinv
  · intro env now s a b hw hinv
    rcases delete_state_shape env now s a b with hq | hq
    · rw [hq]; exact hinv
    · rw [hq]; exact ga_cacheInv env now s hw hinv
  · intro env now s u cid csec tid hw
    rw [configure_state_shape env now s u cid csec tid]
    refine ga_cacheInv env now (configuredState u cid csec tid) hw ?_
    intro h
    exact nomatch h
  · intro env now s tok hok hreqs
    by_cases hfp : tokenFresh now s = true
    · unfold tokenFresh at hfp
      cases hTE : s.TOKEN_EXPIRY with
      | none => rw [hTE] at hfp; simp at hfp
      | some T =>
          rw [hTE] at hfp
          simp only [Bool.and_eq_true, decide_eq_true_eq] at hfp
          exact ⟨T, rfl, hfp.2⟩
    · have hf : tokenFresh now s = false := by simpa using hfp
      by_cases hcred : credsEmpty s
      · rw [ga_creds_stop env now s hf hcred] at hok
        simp at hok
      · rw [ga_reqs env now s hf hcred] at hreqs
        simp at hreqs

/-- A proof that the granting transport is well typed. -/
theorem envGrant_wellTyped : WellTypedExpiry envGrant := by
  intro req fs hdrs v h1 h2
  cases h1
  simp [List.lookup] at h2
  subst h2
  exact ⟨3300, rfl⟩

/-- Witness for C8: the invariant holds initially, after a refresh through
the granting transport, and the fast-path clause at the fresh state. -/
theorem C8_cache_invariant_witness :
    cacheInv initState ∧
    cacheInv ((get_access_token envGrant 0 cfgState).2.1) ∧
    (∃ T, freshState.TOKEN_EXPIRY = some T ∧ (0 : Int) < T) := by
  have h := C8_cache_invariant
  refine ⟨h.1, h.2.1 envGrant 0 cfgState envGrant_wellTyped ?_, ?_⟩
  · intro hx
    exact nomatch hx
  · exact h.2.2.2.2.2.2.2 envRefuse 0 freshState (Json.str "tok") rfl rfl
